import Mathlib

/-!
Shallow embedding of the blog content models (`blog/models.py` and
`content_manager/models.py`) of the content-manager repository.

The custom logic of the repository lives in three places, all in
`blog/models.py`:

* `Category.clean` / `Category.save` — depth-one circular-parent validation
  and slug auto-derivation via Django's `slugify`;
* `BlogIndexPage.posts` / `BlogIndexPage.get_context` — live-descendant
  listing, tag/category/author/year filtering, breadcrumb construction and
  Django `Paginator`-style pagination with clamp-and-recover fallbacks;
* `BlogIndexPage.list_tags` — per-tag usage counts over the listing,
  filtered by a minimum count and sorted descending by count.

Framework primitives that the code calls (`slugify`, `Paginator`,
queryset `filter` / `order_by`, `get_object_or_404`) are embedded with their
documented Django semantics; ORM rows are plain Lean structures and
querysets are lists.
-/

namespace ContentManager

/-! ### Django `slugify` (django.utils.text.slugify, allow_unicode=False)

`slugify` NFKD-normalises, encodes to ASCII ignoring unencodable
characters, lowercases, removes every character that is not alphanumeric,
underscore, whitespace or hyphen, collapses runs of hyphens/whitespace to a
single hyphen, and strips leading/trailing hyphens and underscores.
The NFKD + ASCII-ignore step is embedded as a character fold covering the
precomposed Latin letters (accented characters decompose to their base
letter plus a combining mark, which the ASCII encode drops); any other
non-ASCII character is dropped, as the ASCII encode would do. -/

def asciiFold (c : Char) : List Char :=
  if c.toNat < 128 then [c]
  else
    match c with
    | 'à' | 'á' | 'â' | 'ã' | 'ä' | 'å' => ['a']
    | 'è' | 'é' | 'ê' | 'ë' => ['e']
    | 'ì' | 'í' | 'î' | 'ï' => ['i']
    | 'ò' | 'ó' | 'ô' | 'õ' | 'ö' => ['o']
    | 'ù' | 'ú' | 'û' | 'ü' => ['u']
    | 'ý' | 'ÿ' => ['y']
    | 'ç' => ['c']
    | 'ñ' => ['n']
    | 'À' | 'Á' | 'Â' | 'Ã' | 'Ä' | 'Å' => ['A']
    | 'È' | 'É' | 'Ê' | 'Ë' => ['E']
    | 'Ì' | 'Í' | 'Î' | 'Ï' => ['I']
    | 'Ò' | 'Ó' | 'Ô' | 'Õ' | 'Ö' => ['O']
    | 'Ù' | 'Ú' | 'Û' | 'Ü' => ['U']
    | 'Ý' => ['Y']
    | 'Ç' => ['C']
    | 'Ñ' => ['N']
    | _ => []

def foldChars : List Char → List Char
  | [] => []
  | c :: cs => asciiFold c ++ foldChars cs

def asciiLower (c : Char) : Char :=
  if 'A' ≤ c && c ≤ 'Z' then Char.ofNat (c.toNat + 32) else c

/-- Python's regex `\w` on the ASCII text produced by the encode step. -/
def pyIsWord (c : Char) : Bool :=
  ('a' ≤ c && c ≤ 'z') || ('A' ≤ c && c ≤ 'Z') || ('0' ≤ c && c ≤ '9') || c = '_'

/-- Python's regex `\s` restricted to ASCII: space, tab, newline, carriage
return, vertical tab, form feed and the separator controls 0x1c–0x1f. -/
def pyIsSpace (c : Char) : Bool :=
  c = ' ' || c = '\t' || c = '\n' || c = '\r' || c.toNat = 11 || c.toNat = 12 ||
    (28 ≤ c.toNat && c.toNat ≤ 31)

def keepWordSpaceDash (c : Char) : Bool :=
  pyIsWord c || pyIsSpace c || c = '-'

/-- Replacement of every run matching `[-\s]+` by a single hyphen. -/
def collapseDashSpace : List Char → List Char
  | [] => []
  | c :: cs =>
    let rest := collapseDashSpace cs
    if c = '-' || pyIsSpace c then
      match rest with
      | '-' :: _ => rest
      | _ => '-' :: rest
    else c :: rest

def isDashUnderscore (c : Char) : Bool := c = '-' || c = '_'

/-- Python's `str.strip("-_")`. -/
def stripEnds (l : List Char) : List Char :=
  ((l.dropWhile isDashUnderscore).reverse.dropWhile isDashUnderscore).reverse

def slugify (s : String) : String :=
  let ascii := foldChars s.data
  let lowered := ascii.map asciiLower
  let kept := lowered.filter keepWordSpaceDash
  String.mk (stripEnds (collapseDashSpace kept))

/-! ### Category (blog/models.py, class Category)

A `Category` row: primary key, name, slug and an optional parent foreign
key (stored as the parent's primary key, as in the database column
`parent_id`).  Django model equality (`self.parent == self`) compares
primary keys of same-class instances, so the embedding compares `id`s.
Foreign-key dereference (`self.parent`, `parent.parent`) goes through a
database snapshot `db : Nat → Option Category` mapping a primary key to its
row. -/

structure Category where
  id : Nat
  name : String
  slug : String
  parentId : Option Nat
deriving DecidableEq, Repr

/-- Embedding of `Category.clean`:
`if self.parent:` (falsy when the FK is NULL), then
`if self.parent == self: raise ValidationError(...)`, then
`if parent.parent and parent.parent == self: raise ValidationError(...)`.
A raised `ValidationError` is an `Except.error` carrying the message. -/
def Category.clean (db : Nat → Option Category) (c : Category) :
    Except String Unit :=
  match c.parentId with
  | none => Except.ok ()
  | some pid =>
    if pid = c.id then Except.error "Parent category cannot be self."
    else
      match db pid with
      | none => Except.ok ()
      | some p =>
        match p.parentId with
        | none => Except.ok ()
        | some pp =>
          if pp = c.id then Except.error "Cannot have circular Parents."
          else Except.ok ()

/-- Embedding of `Category.save`: `if not self.slug: self.slug = slugify(self.name)`
followed by the framework save (persisting the possibly-updated row). -/
def Category.save (c : Category) : Category :=
  if c.slug = "" then { c with slug := slugify c.name } else c

/-! ### Claims C3–C6 and C10 -/

/-- C3: for every category C, validating (`Category.clean`) C with parent
set to C itself raises a `ValidationError`. -/
theorem clean_rejects_self_parent (db : Nat → Option Category) (c : Category)
    (h : c.parentId = some c.id) :
    Category.clean db c = Except.error "Parent category cannot be self." := by
  unfold Category.clean
  rw [h]
  simp

theorem clean_rejects_self_parent_witness :
    Category.clean (fun _ => none) ⟨1, "News", "news", some 1⟩ =
      Except.error "Parent category cannot be self." :=
  clean_rejects_self_parent (fun _ => none) ⟨1, "News", "news", some 1⟩ rfl

/-- C4: for every category C and every category P distinct from C (distinct
primary keys), validating C with parent set to P raises a `ValidationError`
whenever P's parent is C. -/
theorem clean_rejects_two_cycle (db : Nat → Option Category) (c p : Category)
    (hcp : c.parentId = some p.id) (hne : p.id ≠ c.id)
    (hdb : db p.id = some p) (hpc : p.parentId = some c.id) :
    Category.clean db c = Except.error "Cannot have circular Parents." := by
  unfold Category.clean
  rw [hcp]
  simp [hne, hdb, hpc]

theorem clean_rejects_two_cycle_witness :
    Category.clean
      (fun n => if n = 2 then some ⟨2, "P", "p", some 1⟩ else none)
      ⟨1, "C", "c", some 2⟩ =
      Except.error "Cannot have circular Parents." :=
  clean_rejects_two_cycle
    (fun n => if n = 2 then some ⟨2, "P", "p", some 1⟩ else none)
    ⟨1, "C", "c", some 2⟩ ⟨2, "P", "p", some 1⟩ rfl (by decide) rfl rfl

/-- C5: category validation checks cycles only one level deep: for distinct
categories A, B, C with B.parent = C and C.parent = A, validating A with
parent set to B does not raise, even though it closes the three-cycle
A→B→C→A. -/
theorem clean_misses_three_cycle (db : Nat → Option Category)
    (a b c : Category)
    (hab : a.id ≠ b.id) (hbc : b.id ≠ c.id) (hac : a.id ≠ c.id)
    (hpa : a.parentId = some b.id) (hdb : db b.id = some b)
    (hpb : b.parentId = some c.id) (hpc : c.parentId = some a.id) :
    Category.clean db a = Except.ok () := by
  unfold Category.clean
  rw [hpa]
  have h1 : b.id ≠ a.id := fun h => hab h.symm
  have h2 : c.id ≠ a.id := fun h => hac h.symm
  simp [h1, hdb, hpb, h2]

theorem clean_misses_three_cycle_witness :
    Category.clean
      (fun n => if n = 2 then some ⟨2, "B", "b", some 3⟩
                else if n = 3 then some ⟨3, "C", "c", some 1⟩ else none)
      ⟨1, "A", "a", some 2⟩ = Except.ok () :=
  clean_misses_three_cycle
    (fun n => if n = 2 then some ⟨2, "B", "b", some 3⟩
              else if n = 3 then some ⟨3, "C", "c", some 1⟩ else none)
    ⟨1, "A", "a", some 2⟩ ⟨2, "B", "b", some 3⟩ ⟨3, "C", "c", some 1⟩
    (by decide) (by decide) (by decide) rfl rfl rfl rfl

/-- C6: for every category whose slug is empty at save time, `Category.save`
sets the slug to the slugified name before persisting; in particular the
name "Actualités" slugifies to "actualites". -/
theorem save_slugifies_empty_slug (c : Category) (h : c.slug = "") :
    (Category.save c).slug = slugify c.name ∧
      slugify "Actualités" = "actualites" := by
  constructor
  · unfold Category.save
    rw [h]
    simp
  · rfl

theorem save_slugifies_empty_slug_witness :
    (Category.save ⟨1, "Actualités", "", none⟩).slug = slugify "Actualités" ∧
      slugify "Actualités" = "actualites" :=
  save_slugifies_empty_slug ⟨1, "Actualités", "", none⟩ rfl

/-- C10: for every category whose slug is non-empty at save time,
`Category.save` leaves the slug field unchanged (no re-slugification from
the name occurs). -/
theorem save_preserves_nonempty_slug (c : Category) (h : c.slug ≠ "") :
    (Category.save c).slug = c.slug := by
  unfold Category.save
  simp [h]

theorem save_preserves_nonempty_slug_witness :
    (Category.save ⟨1, "Actualités", "news", none⟩).slug = "news" :=
  save_preserves_nonempty_slug ⟨1, "Actualités", "news", none⟩ (by decide)

/-! ### Blog data model (blog/models.py) -/

/-- A taggit `Tag` row: name and (globally unique) slug. -/
structure Tag where
  name : String
  slug : String
deriving DecidableEq, Repr

/-- A Django auth `User` row, as used by the author filter and breadcrumb. -/
structure User where
  id : Nat
  firstName : String
  lastName : String
deriving DecidableEq, Repr

/-- A datetime value, as much of it as `order_by("-date")` and
`date__year` observe: the year plus an ordinal `sub` ordering datetimes
within the same year.  Datetimes compare lexicographically on
`(year, sub)`. -/
structure DateTime where
  year : Int
  sub : Int
deriving DecidableEq, Repr

/-- Comparison `a ≥ b` on datetimes (lexicographic on year then sub). -/
def dateGe (a b : DateTime) : Bool :=
  decide (b.year < a.year) ||
    (decide (b.year = a.year) && decide (b.sub ≤ a.sub))

/-- A `BlogEntryPage` row: live/draft state, publish datetime, its tags,
the slugs of its `blog_categories`, and its owner's user id. -/
structure BlogEntryPage where
  live : Bool
  date : DateTime
  tags : List Tag
  categorySlugs : List String
  ownerId : Nat
deriving DecidableEq, Repr

/-- A `BlogIndexPage` row: title and slug (used by breadcrumbs), the
validated `posts_per_page` field, and its descendant `BlogEntryPage`s
(the rows `BlogEntryPage.objects.descendant_of(self)` returns before the
`live()` filter). -/
structure BlogIndexPage where
  title : String
  slug : String
  posts_per_page : Nat
  entries : List BlogEntryPage
deriving DecidableEq, Repr

/-- Date-descending order on entries, the relation behind
`order_by("-date")`. -/
def entryDateGe (p q : BlogEntryPage) : Prop :=
  dateGe p.date q.date = true

instance : DecidableRel entryDateGe := fun p q =>
  inferInstanceAs (Decidable (dateGe p.date q.date = true))

instance : IsTotal BlogEntryPage entryDateGe :=
  ⟨by
    intro a b
    unfold entryDateGe dateGe
    simp only [Bool.or_eq_true, Bool.and_eq_true, decide_eq_true_eq]
    omega⟩

instance : IsTrans BlogEntryPage entryDateGe :=
  ⟨by
    intro a b c hab hbc
    unfold entryDateGe dateGe at *
    simp only [Bool.or_eq_true, Bool.and_eq_true, decide_eq_true_eq] at *
    omega⟩

/-- Embedding of the `posts` property: live descendant entries ordered by
date descending (`select_related`/`prefetch_related` are fetch hints with
no effect on the returned rows). -/
def BlogIndexPage.posts (idx : BlogIndexPage) : List BlogEntryPage :=
  List.insertionSort entryDateGe (idx.entries.filter (fun p => p.live))

/-! ### Django pagination (django.core.paginator.Paginator)

`Paginator(posts, page_size).page(number)` first converts `number` with
`int(...)` (raising `PageNotAnInteger` on failure), then rejects numbers
below 1 or above `num_pages` with `EmptyPage`; with the default
`allow_empty_first_page=True` and `orphans=0`,
`num_pages = ceil(max(1, count) / per_page)` and page `n` holds the slice
`posts[(n-1)*k : n*k]`. -/

/-- Python `int(...)` digit run: digits with single underscores strictly
between digits. -/
def intDigitsOk : List Char → Bool
  | [] => true
  | ['_'] => false
  | '_' :: '_' :: _ => false
  | '_' :: c :: cs => c.isDigit && intDigitsOk (c :: cs)
  | c :: cs => c.isDigit && intDigitsOk cs

def digitsVal (cs : List Char) : Nat :=
  cs.foldl (fun a c => if c = '_' then a else a * 10 + (c.toNat - 48)) 0

def intLit (cs : List Char) : Option Nat :=
  match cs with
  | [] => none
  | c :: _ => if c.isDigit && intDigitsOk cs then some (digitsVal cs) else none

def stripWS (cs : List Char) : List Char :=
  ((cs.dropWhile pyIsSpace).reverse.dropWhile pyIsSpace).reverse

/-- Embedding of Python's `int(s)` for strings: optional surrounding
whitespace, optional sign, then a digit run. -/
def pyInt (s : String) : Option Int :=
  match stripWS s.data with
  | '+' :: rest => (intLit rest).map (fun n => (n : Int))
  | '-' :: rest => (intLit rest).map (fun n => -(n : Int))
  | rest => (intLit rest).map (fun n => (n : Int))

/-- Paginator.num_pages with `orphans=0`, `allow_empty_first_page=True`. -/
def numPages (count k : Nat) : Nat := (max 1 count + k - 1) / k

/-- Contents of page `n` (1-based): `posts[(n-1)*k : n*k]`. -/
def pageSlice (posts : List BlogEntryPage) (k n : Nat) : List BlogEntryPage :=
  (posts.drop ((n - 1) * k)).take k

/-- Embedding of the pagination block of `get_context`:
`paginator.page(page)` with `except PageNotAnInteger: page(1)` and
`except EmptyPage: page(paginator.num_pages)`.  A missing parameter
(`int(None)` raising `TypeError`) is also caught as `PageNotAnInteger`. -/
def paginateList (posts : List BlogEntryPage) (k : Nat)
    (pageParam : Option String) : List BlogEntryPage :=
  match pageParam.bind pyInt with
  | none => pageSlice posts k 1
  | some n =>
    if n < 1 then pageSlice posts k (numPages posts.length k)
    else if (numPages posts.length k : Int) < n then
      pageSlice posts k (numPages posts.length k)
    else pageSlice posts k n.toNat

/-! ### get_context (blog/models.py, BlogIndexPage.get_context) -/

/-- The query-string parameters `get_context` reads from `request.GET`. -/
structure Request where
  getTag : Option String
  getCategory : Option String
  getPage : Option String
deriving DecidableEq, Repr

/-- Lookup tables behind `get_object_or_404`: the `Tag` table, the
`Category` table restricted to the current request locale (the `clean`
query filters on `locale=locale`), and the `User` table. -/
structure Env where
  tags : List Tag
  categories : List Category
  users : List User
deriving Repr

def Env.findTag (e : Env) (slug : String) : Option Tag :=
  e.tags.find? (fun t => t.slug = slug)

def Env.findCategory (e : Env) (slug : String) : Option Category :=
  e.categories.find? (fun c => c.slug = slug)

def Env.findUser (e : Env) (uid : Nat) : Option User :=
  e.users.find? (fun u => u.id = uid)

/-- Exceptions `get_context` can raise: `Http404` from
`get_object_or_404`, and `AttributeError` from attribute access on a plain
string left in the `category` variable. -/
inductive PyErr where
  | http404
  | attributeError
deriving DecidableEq, Repr

/-- Breadcrumb descriptors attached to the context, identified by which
filter built them together with the data rendered as `current` (link URLs
come from `self.get_url()` / `reverse(...)` and are not modelled). -/
inductive Breadcrumb where
  | tag (indexTitle indexSlug : String) (current : Tag)
  | category (indexTitle indexSlug : String) (currentName : String)
  | author (indexTitle : String) (currentName : String)
deriving DecidableEq, Repr

def Breadcrumb.isTag : Breadcrumb → Bool
  | .tag _ _ _ => true
  | _ => false

/-- Tag block of `get_context`: `if tag:` (falsy for `None` and `""`),
`tag = get_object_or_404(Tag, slug=tag)`, filter
`tags__slug=tag.slug`, build the tag breadcrumb.  The first component is
the value left in the Python variable `tag`: the original string
(`Sum.inl`) or the looked-up object (`Sum.inr`). -/
def tagStep (idx : BlogIndexPage) (env : Env) (tagParam : Option String)
    (posts : List BlogEntryPage) :
    Except PyErr (Option (Sum String Tag) × List BlogEntryPage × Option Breadcrumb) :=
  match tagParam with
  | none => Except.ok (none, posts, none)
  | some s =>
    if s = "" then Except.ok (some (Sum.inl s), posts, none)
    else
      match env.findTag s with
      | none => Except.error PyErr.http404
      | some t =>
        Except.ok (some (Sum.inr t),
          posts.filter (fun p => p.tags.any (fun tg => tg.slug = t.slug)),
          some (Breadcrumb.tag idx.title idx.slug t))

/-- Category block of `get_context`: when the `category` argument is
`None`, a truthy `?category=` query parameter is looked up; then
`if category:` converts a slug argument to an object only when the query
parameter is absent (so a slug argument combined with a truthy query
parameter leaves a plain string whose `.slug` access raises
`AttributeError`), filters `blog_categories__slug=category.slug` and
builds the category breadcrumb, overwriting any earlier one. -/
def catStep (idx : BlogIndexPage) (env : Env) (req : Request)
    (carg : Option String) (posts : List BlogEntryPage)
    (bc : Option Breadcrumb) :
    Except PyErr (Option (Sum String Category) × List BlogEntryPage × Option Breadcrumb) :=
  let cat0 : Except PyErr (Option (Sum String Category)) :=
    match carg with
    | some s => Except.ok (some (Sum.inl s))
    | none =>
      match req.getCategory with
      | none => Except.ok none
      | some gs =>
        if gs = "" then Except.ok none
        else
          match env.findCategory gs with
          | none => Except.error PyErr.http404
          | some c => Except.ok (some (Sum.inr c))
  match cat0 with
  | Except.error e => Except.error e
  | Except.ok none => Except.ok (none, posts, bc)
  | Except.ok (some (Sum.inl s)) =>
    if s = "" then Except.ok (some (Sum.inl s), posts, bc)
    else if req.getCategory.getD "" ≠ "" then Except.error PyErr.attributeError
    else
      match env.findCategory s with
      | none => Except.error PyErr.http404
      | some c =>
        Except.ok (some (Sum.inr c),
          posts.filter (fun p => p.categorySlugs.contains c.slug),
          some (Breadcrumb.category idx.title idx.slug c.name))
  | Except.ok (some (Sum.inr c)) =>
    Except.ok (some (Sum.inr c),
      posts.filter (fun p => p.categorySlugs.contains c.slug),
      some (Breadcrumb.category idx.title idx.slug c.name))

/-- Author block of `get_context`: `if author:` (falsy for `None` and 0),
`author = get_object_or_404(User, id=author)`, build the author
breadcrumb (unconditionally overwriting any earlier one), filter
`owner=author`. -/
def authorStep (idx : BlogIndexPage) (env : Env) (author : Option Nat)
    (posts : List BlogEntryPage) (bc : Option Breadcrumb) :
    Except PyErr (Option (Sum Nat User) × List BlogEntryPage × Option Breadcrumb) :=
  match author with
  | none => Except.ok (none, posts, bc)
  | some a =>
    if a = 0 then Except.ok (some (Sum.inl a), posts, bc)
    else
      match env.findUser a with
      | none => Except.error PyErr.http404
      | some u =>
        Except.ok (some (Sum.inr u),
          posts.filter (fun p => p.ownerId = u.id),
          some (Breadcrumb.author idx.title
            ("Posts written by " ++ u.firstName ++ " " ++ u.lastName)))

/-- Year block: `if year: posts = posts.filter(date__year=year)`
(falsy for `None` and 0). -/
def yearFilter (year : Option Int) (posts : List BlogEntryPage) :
    List BlogEntryPage :=
  match year with
  | none => posts
  | some y => if y = 0 then posts else posts.filter (fun p => p.date.year = y)

/-- State of `get_context` after the four filter blocks: the filtered
queryset, the breadcrumb variable, and the values left in the `tag`,
`category` and `author` Python variables. -/
structure FilterResult where
  posts : List BlogEntryPage
  breadcrumb : Option Breadcrumb
  tagVal : Option (Sum String Tag)
  catVal : Option (Sum String Category)
  authorVal : Option (Sum Nat User)
deriving DecidableEq, Repr

/-- Resolution `if tag is None: tag = request.GET.get("tag")`. -/
def resolveTagParam (targ : Option String) (req : Request) : Option String :=
  match targ with
  | none => req.getTag
  | some s => some s

/-- Sequencing of the filter blocks of `get_context`. -/
def filtersStep (idx : BlogIndexPage) (env : Env) (req : Request)
    (targ carg : Option String) (author : Option Nat) (year : Option Int) :
    Except PyErr FilterResult :=
  match tagStep idx env (resolveTagParam targ req) idx.posts with
  | Except.error e => Except.error e
  | Except.ok (tv, posts1, bc1) =>
    match catStep idx env req carg posts1 bc1 with
    | Except.error e => Except.error e
    | Except.ok (cv, posts2, bc2) =>
      match authorStep idx env author posts2 bc2 with
      | Except.error e => Except.error e
      | Except.ok (av, posts3, bc3) =>
        Except.ok ⟨yearFilter year posts3, bc3, tv, cv, av⟩

/-- The context dictionary entries `get_context` fills in. -/
structure Context where
  posts : List BlogEntryPage
  categoryName : Option String
  tagCtx : Option (Sum String Tag)
  authorCtx : Option (Sum Nat User)
  year : Option Int
  numPages : Nat
  breadcrumb : Option Breadcrumb
deriving DecidableEq, Repr

/-- Embedding of `BlogIndexPage.get_context`: run the filter blocks, then
paginate with the `page` query parameter, then build the context;
`context["category"] = category.name` raises `AttributeError` when the
`category` variable still holds a plain string. -/
def BlogIndexPage.get_context (idx : BlogIndexPage) (env : Env)
    (req : Request) (targ carg : Option String) (author : Option Nat)
    (year : Option Int) : Except PyErr Context :=
  match filtersStep idx env req targ carg author year with
  | Except.error e => Except.error e
  | Except.ok fr =>
    match fr.catVal with
    | some (Sum.inl _) => Except.error PyErr.attributeError
    | some (Sum.inr c) =>
      Except.ok ⟨paginateList fr.posts idx.posts_per_page req.getPage,
        some c.name, fr.tagVal, fr.authorVal, year,
        numPages fr.posts.length idx.posts_per_page, fr.breadcrumb⟩
    | none =>
      Except.ok ⟨paginateList fr.posts idx.posts_per_page req.getPage,
        none, fr.tagVal, fr.authorVal, year,
        numPages fr.posts.length idx.posts_per_page, fr.breadcrumb⟩

/-! ### list_tags (blog/models.py, BlogIndexPage.list_tags)

`posts.values(tag_name=F("tags__name"), tag_slug=F("tags__slug"))`
left-joins the listing with its tags: one row per (post, tag) pair, plus
one NULL row for a post with no tags.  `annotate(tag_count=Count("tag_slug"))`
groups by the (name, slug) pair and counts the non-NULL slugs of each
group, `filter(tag_count__gte=min_count)` keeps groups with count at least
`min_count`, and `order_by("-tag_count")` sorts descending by count. -/

def tagRows : List BlogEntryPage → List (Option Tag)
  | [] => []
  | p :: ps => (if p.tags.isEmpty then [none] else p.tags.map some) ++ tagRows ps

/-- Count("tag_slug") over one group: the number of rows of the group,
except that the NULL group counts no non-NULL slug. -/
def groupCount (rows : List (Option Tag)) (k : Option Tag) : Nat :=
  match k with
  | none => 0
  | some _ => rows.count k

/-- Descending-count order between aggregation rows. -/
def countGe (a b : Option Tag × Nat) : Prop := b.2 ≤ a.2

instance : DecidableRel countGe := fun a b =>
  inferInstanceAs (Decidable (b.2 ≤ a.2))

instance : IsTotal (Option Tag × Nat) countGe :=
  ⟨fun a b => Nat.le_total b.2 a.2⟩

instance : IsTrans (Option Tag × Nat) countGe :=
  ⟨fun _ _ _ hab hbc => Nat.le_trans hbc hab⟩

/-- Embedding of `BlogIndexPage.list_tags`. -/
def BlogIndexPage.list_tags (idx : BlogIndexPage) (min_count : Nat) :
    List (Option Tag × Nat) :=
  List.insertionSort countGe
    (((tagRows idx.posts).dedup.map
        (fun k => (k, groupCount (tagRows idx.posts) k))).filter
      (fun g => decide (min_count ≤ g.2)))

/-- Number of live descendant posts of the listing using tag `t`. -/
def tagUsage (posts : List BlogEntryPage) (t : Tag) : Nat :=
  (posts.filter (fun p => decide (t ∈ p.tags))).length

/-! ### Observation helpers for stating the claims -/

def ctxPosts : Except PyErr Context → List BlogEntryPage
  | Except.ok c => c.posts
  | Except.error _ => []

def isOkE : Except PyErr Context → Bool
  | Except.ok _ => true
  | Except.error _ => false

def isStrCat : Option (Sum String Category) → Bool
  | some (Sum.inl _) => true
  | _ => false

/-- Truth of "the page parameter is an integer beyond the last page". -/
def pageIsBeyond (pageParam : Option String) (count k : Nat) : Bool :=
  match pageParam.bind pyInt with
  | some n => decide ((numPages count k : Int) < n)
  | none => false

/-! ### Helper lemmas -/

theorem posts_mem (idx : BlogIndexPage) (p : BlogEntryPage) :
    p ∈ idx.posts ↔ p ∈ idx.entries ∧ p.live = true := by
  unfold BlogIndexPage.posts
  rw [(List.perm_insertionSort entryDateGe _).mem_iff, List.mem_filter]

theorem posts_sorted (idx : BlogIndexPage) :
    List.Pairwise entryDateGe idx.posts :=
  List.sorted_insertionSort entryDateGe _

theorem pageSlice_sublist (posts : List BlogEntryPage) (k n : Nat) :
    (pageSlice posts k n).Sublist posts :=
  (List.take_sublist _ _).trans (List.drop_sublist _ _)

theorem paginateList_eq_slice (posts : List BlogEntryPage) (k : Nat)
    (pp : Option String) :
    ∃ n, paginateList posts k pp = pageSlice posts k n := by
  unfold paginateList
  cases hpp : pp.bind pyInt with
  | none => exact ⟨1, rfl⟩
  | some n =>
    by_cases h1 : n < 1
    · exact ⟨numPages posts.length k, by simp [h1]⟩
    · by_cases h2 : (numPages posts.length k : Int) < n
      · exact ⟨numPages posts.length k, by simp [h1, h2]⟩
      · exact ⟨n.toNat, by simp [h1, h2]⟩

theorem paginateList_not_int (posts : List BlogEntryPage) (k : Nat)
    (pp : Option String) (h : pp.bind pyInt = none) :
    paginateList posts k pp = pageSlice posts k 1 := by
  unfold paginateList
  rw [h]

theorem paginateList_beyond (posts : List BlogEntryPage) (k : Nat)
    (pp : Option String) (h : pageIsBeyond pp posts.length k = true) :
    paginateList posts k pp = pageSlice posts k (numPages posts.length k) := by
  unfold pageIsBeyond at h
  unfold paginateList
  cases hpp : pp.bind pyInt with
  | none => rw [hpp] at h; cases h
  | some n =>
    rw [hpp] at h
    rw [decide_eq_true_eq] at h
    by_cases h1 : n < 1
    · simp [h1]
    · simp [h1, h]

theorem count_map_some (t : Tag) (l : List Tag) :
    (l.map some).count (some t) = l.count t := by
  induction l with
  | nil => rfl
  | cons a l ih => simp [List.count_cons, ih]

/-- Count of tag `t` among the join rows contributed by a single post:
1 when the post uses `t`, else 0 (the post's tag set holds no duplicates,
the through-table being unique per (entry, tag) pair). -/
theorem count_rowsOf (t : Tag) (p : BlogEntryPage) (hp : p.tags.Nodup) :
    ((if p.tags.isEmpty then [none] else p.tags.map some) :
        List (Option Tag)).count (some t) =
      if t ∈ p.tags then 1 else 0 := by
  cases htags : p.tags with
  | nil => simp
  | cons a l =>
    rw [htags] at hp
    simp only [List.isEmpty_cons, Bool.false_eq_true, if_false, count_map_some]
    by_cases hmem : t ∈ a :: l
    · rw [if_pos hmem, List.count_eq_one_of_mem hp hmem]
    · rw [if_neg hmem, List.count_eq_zero_of_not_mem hmem]

theorem count_tagRows (t : Tag) :
    ∀ posts : List BlogEntryPage, (∀ p ∈ posts, p.tags.Nodup) →
      (tagRows posts).count (some t) = tagUsage posts t := by
  intro posts
  induction posts with
  | nil => intro _; rfl
  | cons p ps ih =>
    intro h
    have hp : p.tags.Nodup := h p (List.mem_cons_self p ps)
    have hps : ∀ q ∈ ps, q.tags.Nodup := fun q hq => h q (List.mem_cons_of_mem p hq)
    show ((if p.tags.isEmpty then [none] else p.tags.map some) ++
        tagRows ps).count (some t) = tagUsage (p :: ps) t
    rw [List.count_append, count_rowsOf t p hp, ih hps]
    unfold tagUsage
    rw [List.filter_cons]
    by_cases hmem : t ∈ p.tags
    · simp [hmem]
      omega
    · simp [hmem]

/-! ### Claims C7, C2, C8, C1, C9 -/

/-- C7: for every blog index and every `min_count`, `list_tags` returns
the per-tag usage counts over the index's live descendant posts, contains
exactly the tags whose count is at least `min_count`, and is sorted
descending by count.  (The hypothesis records the database invariant that
a post's tag set holds no duplicate tag.) -/
theorem list_tags_counts_sorted (idx : BlogIndexPage) (min_count : Nat)
    (t : Tag) (k : Nat) (h : ∀ p ∈ idx.entries, p.tags.Nodup) :
    ((some t, k) ∈ idx.list_tags min_count ↔
      k = tagUsage idx.posts t ∧ min_count ≤ k ∧ 0 < k) ∧
    List.Pairwise countGe (idx.list_tags min_count) := by
  have hnd : ∀ p ∈ idx.posts, p.tags.Nodup := fun p hp =>
    h p ((posts_mem idx p).mp hp).1
  have hcount := count_tagRows t idx.posts hnd
  constructor
  · unfold BlogIndexPage.list_tags
    rw [(List.perm_insertionSort countGe _).mem_iff, List.mem_filter]
    constructor
    · rintro ⟨hmem, hge⟩
      rw [List.mem_map] at hmem
      obtain ⟨key, hkey, heq⟩ := hmem
      rw [Prod.mk.injEq] at heq
      obtain ⟨rfl, hk⟩ := heq
      have hkval : k = (tagRows idx.posts).count (some t) := by
        rw [← hk]; rfl
      refine ⟨by rw [hkval, hcount], ?_, ?_⟩
      · rw [decide_eq_true_eq] at hge
        exact hge
      · rw [hkval]
        exact List.count_pos_iff.mpr (List.mem_dedup.mp hkey)
    · rintro ⟨hk, hge, hpos⟩
      have hkval : (tagRows idx.posts).count (some t) = k := by
        rw [hcount, hk]
      have hmem : (some t) ∈ (tagRows idx.posts).dedup :=
        List.mem_dedup.mpr (List.count_pos_iff.mp (by rw [hkval]; exact hpos))
      refine ⟨List.mem_map.mpr ⟨some t, hmem, ?_⟩, by
        rw [decide_eq_true_eq]; exact hge⟩
      show (some t, (tagRows idx.posts).count (some t)) = (some t, k)
      rw [hkval]
  · exact List.sorted_insertionSort countGe _

theorem list_tags_counts_sorted_witness :
    ((some (Tag.mk "B" "b"), 1) ∈
        (BlogIndexPage.mk "Blog" "blog" 10
          [⟨true, ⟨2024, 2⟩, [⟨"A", "a"⟩, ⟨"B", "b"⟩], [], 1⟩,
           ⟨true, ⟨2024, 1⟩, [⟨"A", "a"⟩], [], 1⟩]).list_tags 2 ↔
      1 = tagUsage (BlogIndexPage.mk "Blog" "blog" 10
          [⟨true, ⟨2024, 2⟩, [⟨"A", "a"⟩, ⟨"B", "b"⟩], [], 1⟩,
           ⟨true, ⟨2024, 1⟩, [⟨"A", "a"⟩], [], 1⟩]).posts (Tag.mk "B" "b") ∧
        2 ≤ 1 ∧ 0 < 1) ∧
    List.Pairwise countGe
      ((BlogIndexPage.mk "Blog" "blog" 10
          [⟨true, ⟨2024, 2⟩, [⟨"A", "a"⟩, ⟨"B", "b"⟩], [], 1⟩,
           ⟨true, ⟨2024, 1⟩, [⟨"A", "a"⟩], [], 1⟩]).list_tags 2) :=
  list_tags_counts_sorted
    (BlogIndexPage.mk "Blog" "blog" 10
      [⟨true, ⟨2024, 2⟩, [⟨"A", "a"⟩, ⟨"B", "b"⟩], [], 1⟩,
       ⟨true, ⟨2024, 1⟩, [⟨"A", "a"⟩], [], 1⟩]) 2 (Tag.mk "B" "b") 1
    (by decide)

/-- Shape of a successful `get_context`: the returned posts are the
pagination of the queryset produced by the filter blocks. -/
theorem get_context_posts_shape (idx : BlogIndexPage) (env : Env)
    (req : Request) (targ carg : Option String) (author : Option Nat)
    (year : Option Int) (fr : FilterResult)
    (hf : filtersStep idx env req targ carg author year = Except.ok fr)
    (hcat : isStrCat fr.catVal = false) :
    isOkE (idx.get_context env req targ carg author year) = true ∧
    ctxPosts (idx.get_context env req targ carg author year) =
      paginateList fr.posts idx.posts_per_page req.getPage := by
  obtain ⟨fposts, fbc, ftv, fcv, fav⟩ := fr
  unfold BlogIndexPage.get_context
  rw [hf]
  cases fcv with
  | none => exact ⟨rfl, rfl⟩
  | some cv =>
    cases cv with
    | inl s => simp [isStrCat] at hcat
    | inr c => exact ⟨rfl, rfl⟩

/-- C2: for every blog index and every request, `get_context` never raises
a pagination error: once the filter blocks have resolved (and the context
build does not fault on a string category), the call returns a context; a
non-integer page parameter yields page 1 of the filtered posts, and an
integer page beyond the last page yields the last page's entries. -/
theorem get_context_pagination_clamps (idx : BlogIndexPage) (env : Env)
    (req : Request) (targ carg : Option String) (author : Option Nat)
    (year : Option Int) (fr : FilterResult)
    (hk : 0 < idx.posts_per_page)
    (hf : filtersStep idx env req targ carg author year = Except.ok fr)
    (hcat : isStrCat fr.catVal = false) :
    isOkE (idx.get_context env req targ carg author year) = true ∧
    (req.getPage.bind pyInt = none →
      ctxPosts (idx.get_context env req targ carg author year) =
        pageSlice fr.posts idx.posts_per_page 1) ∧
    (pageIsBeyond req.getPage fr.posts.length idx.posts_per_page = true →
      ctxPosts (idx.get_context env req targ carg author year) =
        pageSlice fr.posts idx.posts_per_page
          (numPages fr.posts.length idx.posts_per_page)) := by
  obtain ⟨hok, hposts⟩ :=
    get_context_posts_shape idx env req targ carg author year fr hf hcat
  refine ⟨hok, ?_, ?_⟩
  · intro hnone
    rw [hposts, paginateList_not_int _ _ _ hnone]
  · intro hbey
    rw [hposts, paginateList_beyond _ _ _ hbey]

def pagPosts : List BlogEntryPage :=
  [⟨true, ⟨2024, 3⟩, [], [], 1⟩, ⟨true, ⟨2024, 2⟩, [], [], 1⟩,
   ⟨true, ⟨2024, 1⟩, [], [], 1⟩]

def pagIdx : BlogIndexPage := ⟨"Blog", "blog", 2, pagPosts⟩

def emptyEnv : Env := ⟨[], [], []⟩

def pagReq : Request := ⟨none, none, some "99"⟩

theorem get_context_pagination_clamps_witness :
    isOkE (pagIdx.get_context emptyEnv pagReq none none none none) = true ∧
    (pagReq.getPage.bind pyInt = none →
      ctxPosts (pagIdx.get_context emptyEnv pagReq none none none none) =
        pageSlice pagPosts 2 1) ∧
    (pageIsBeyond pagReq.getPage pagPosts.length 2 = true →
      ctxPosts (pagIdx.get_context emptyEnv pagReq none none none none) =
        pageSlice pagPosts 2 (numPages pagPosts.length 2)) :=
  get_context_pagination_clamps pagIdx emptyEnv pagReq none none none none
    ⟨pagPosts, none, none, none, none⟩ (by decide) rfl rfl

/-- C8: for every blog index and every existing tag slug, the post list
produced by `get_context` when filtering by that tag slug contains only
live descendant entries whose tag set includes that tag, and the entries
are ordered by date descending. -/
theorem get_context_tag_filter (idx : BlogIndexPage) (env : Env)
    (req : Request) (s : String) (t : Tag) (ctx : Context)
    (p : BlogEntryPage)
    (hreq : req.getTag = some s) (hs : s ≠ "")
    (hcat : req.getCategory = none)
    (hfind : env.findTag s = some t)
    (hg : idx.get_context env req none none none none = Except.ok ctx)
    (hp : p ∈ ctx.posts) :
    p ∈ idx.entries ∧ p.live = true ∧
      p.tags.any (fun tg => tg.slug = t.slug) = true ∧
      List.Pairwise entryDateGe ctx.posts := by
  have hfr : filtersStep idx env req none none none none =
      Except.ok
        ⟨idx.posts.filter (fun q => q.tags.any (fun tg => tg.slug = t.slug)),
          some (Breadcrumb.tag idx.title idx.slug t),
          some (Sum.inr t), none, none⟩ := by
    simp [filtersStep, resolveTagParam, tagStep, catStep, authorStep,
      yearFilter, hreq, hs, hcat, hfind]
  obtain ⟨hok, hposts⟩ :=
    get_context_posts_shape idx env req none none none none _ hfr rfl
  rw [hg] at hposts
  obtain ⟨n, hn⟩ := paginateList_eq_slice
    (idx.posts.filter (fun q => q.tags.any (fun tg => tg.slug = t.slug)))
    idx.posts_per_page req.getPage
  have hsub : ctx.posts.Sublist
      (idx.posts.filter (fun q => q.tags.any (fun tg => tg.slug = t.slug))) := by
    rw [show ctx.posts =
        paginateList
          (idx.posts.filter (fun q => q.tags.any (fun tg => tg.slug = t.slug)))
          idx.posts_per_page req.getPage from hposts, hn]
    exact pageSlice_sublist _ _ _
  have hmemF := hsub.subset hp
  rw [List.mem_filter] at hmemF
  obtain ⟨hpp, hpred⟩ := hmemF
  obtain ⟨hent, hlive⟩ := (posts_mem idx p).mp hpp
  exact ⟨hent, hlive, hpred,
    List.Pairwise.sublist hsub (List.Pairwise.filter _ (posts_sorted idx))⟩

def tagEntry : BlogEntryPage := ⟨true, ⟨2024, 1⟩, [⟨"T", "t"⟩], [], 5⟩

def tagIdx : BlogIndexPage := ⟨"Blog", "blog", 10, [tagEntry]⟩

def tagEnv : Env := ⟨[⟨"T", "t"⟩], [], []⟩

def tagReq : Request := ⟨some "t", none, none⟩

def tagCtx : Context :=
  ⟨[tagEntry], none, some (Sum.inr ⟨"T", "t"⟩), none, none, 1,
    some (Breadcrumb.tag "Blog" "blog" ⟨"T", "t"⟩)⟩

theorem get_context_tag_filter_witness :
    tagEntry ∈ tagIdx.entries ∧ tagEntry.live = true ∧
      tagEntry.tags.any (fun tg => tg.slug = Tag.slug ⟨"T", "t"⟩) = true ∧
      List.Pairwise entryDateGe tagCtx.posts :=
  get_context_tag_filter tagIdx tagEnv tagReq "t" ⟨"T", "t"⟩ tagCtx tagEntry
    rfl (by decide) rfl rfl rfl (by decide)

/-! Claim C1 concerns the breadcrumb attached when both the tag and the
category query parameters are supplied in the same call.  In the code the
category block runs after the tag block and assigns the breadcrumb
variable unconditionally, so the category breadcrumb — not the tag
breadcrumb — is the one attached. -/

def cexIdx : BlogIndexPage := ⟨"My blog", "my-blog", 10, []⟩

def cexEnv : Env := ⟨[⟨"Tag One", "t1"⟩], [⟨1, "Cat One", "c1", none⟩], []⟩

def cexReq : Request := ⟨some "t1", some "c1", none⟩

def cexCtx : Context :=
  ⟨[], some "Cat One", some (Sum.inr ⟨"Tag One", "t1"⟩), none, none, 1,
    some (Breadcrumb.category "My blog" "my-blog" "Cat One")⟩

/-- C1 counterexample: with both the tag filter (`?tag=t1`) and the
category filter (`?category=c1`) requested in the same call, the
breadcrumb attached to the returned context is the category breadcrumb,
not the tag breadcrumb as the claim states. -/
theorem breadcrumb_precedence_cex :
    (cexIdx.get_context cexEnv cexReq none none none none).map
        (fun ctx => ctx.breadcrumb) =
      Except.ok (some (Breadcrumb.category "My blog" "my-blog" "Cat One")) ∧
    (Breadcrumb.category "My blog" "my-blog" "Cat One").isTag = false :=
  ⟨rfl, rfl⟩

/-- C1 (amended): in `get_context` at most one breadcrumb is attached to
the returned context (a single optional slot written once from the final
value of the breadcrumb variable), and when both the tag and category
filters are requested in the same call the attached breadcrumb is the
category breadcrumb: category takes precedence over tag. -/
theorem get_context_breadcrumb_category_precedence (idx : BlogIndexPage)
    (env : Env) (req : Request) (ts cs : String) (t : Tag) (c : Category)
    (ctx : Context)
    (htq : req.getTag = some ts) (hts : ts ≠ "")
    (hcq : req.getCategory = some cs) (hcs : cs ≠ "")
    (hft : env.findTag ts = some t) (hfc : env.findCategory cs = some c)
    (hg : idx.get_context env req none none none none = Except.ok ctx) :
    ctx.breadcrumb = some (Breadcrumb.category idx.title idx.slug c.name) ∧
    ctx.breadcrumb ≠ some (Breadcrumb.tag idx.title idx.slug t) := by
  have hfr : filtersStep idx env req none none none none =
      Except.ok
        ⟨(idx.posts.filter
            (fun q => q.tags.any (fun tg => tg.slug = t.slug))).filter
              (fun q => q.categorySlugs.contains c.slug),
          some (Breadcrumb.category idx.title idx.slug c.name),
          some (Sum.inr t), some (Sum.inr c), none⟩ := by
    simp [filtersStep, resolveTagParam, tagStep, catStep, authorStep,
      yearFilter, htq, hts, hcq, hcs, hft, hfc]
  unfold BlogIndexPage.get_context at hg
  rw [hfr] at hg
  injection hg with h
  constructor
  · rw [← h]
  · rw [← h]
    simp

theorem get_context_breadcrumb_category_precedence_witness :
    cexCtx.breadcrumb =
      some (Breadcrumb.category "My blog" "my-blog" "Cat One") ∧
    cexCtx.breadcrumb ≠
      some (Breadcrumb.tag "My blog" "my-blog" ⟨"Tag One", "t1"⟩) :=
  get_context_breadcrumb_category_precedence cexIdx cexEnv cexReq "t1" "c1"
    ⟨"Tag One", "t1"⟩ ⟨1, "Cat One", "c1", none⟩ cexCtx
    rfl (by decide) rfl (by decide) rfl rfl rfl

/-- Breadcrumb left by the filter blocks when the author filter is active:
the author block runs after the tag and category blocks and assigns the
breadcrumb variable unconditionally. -/
theorem filtersStep_author_breadcrumb (idx : BlogIndexPage) (env : Env)
    (req : Request) (targ carg : Option String) (year : Option Int)
    (a : Nat) (u : User) (fr : FilterResult)
    (ha : a ≠ 0) (hu : env.findUser a = some u)
    (hf : filtersStep idx env req targ carg (some a) year = Except.ok fr) :
    fr.breadcrumb = some (Breadcrumb.author idx.title
      ("Posts written by " ++ u.firstName ++ " " ++ u.lastName)) := by
  unfold filtersStep at hf
  split at hf
  · exact Except.noConfusion hf
  · split at hf
    · exact Except.noConfusion hf
    · split at hf
      · exact Except.noConfusion hf
      · rename_i av posts3 bc3 heq
        unfold authorStep at heq
        dsimp only at heq
        rw [if_neg ha, hu] at heq
        injection heq with heq1
        injection hf with hf1
        rw [← hf1]
        injection heq1 with h1 h2
        injection h2 with h3 h4
        exact h4.symm

/-- C9: in `get_context`, whenever the author filter is active, the
breadcrumb attached to the context is the author breadcrumb, overwriting
any tag or category breadcrumb built earlier in the same call. -/
theorem get_context_author_breadcrumb (idx : BlogIndexPage) (env : Env)
    (req : Request) (targ carg : Option String) (year : Option Int)
    (a : Nat) (u : User) (ctx : Context)
    (ha : a ≠ 0) (hu : env.findUser a = some u)
    (hg : idx.get_context env req targ carg (some a) year = Except.ok ctx) :
    ctx.breadcrumb = some (Breadcrumb.author idx.title
      ("Posts written by " ++ u.firstName ++ " " ++ u.lastName)) := by
  unfold BlogIndexPage.get_context at hg
  cases hfs : filtersStep idx env req targ carg (some a) year with
  | error e => rw [hfs] at hg; exact Except.noConfusion hg
  | ok fr =>
    rw [hfs] at hg
    have hbc := filtersStep_author_breadcrumb idx env req targ carg year
      a u fr ha hu hfs
    obtain ⟨fposts, fbc, ftv, fcv, fav⟩ := fr
    cases fcv with
    | none =>
      injection hg with h
      rw [← h]
      exact hbc
    | some cv =>
      cases cv with
      | inl sv => exact Except.noConfusion hg
      | inr cv =>
        injection hg with h
        rw [← h]
        exact hbc

def authIdx : BlogIndexPage := ⟨"Blog", "blog", 10, []⟩

def authEnv : Env := ⟨[], [], [⟨7, "Jane", "Doe"⟩]⟩

def authReq : Request := ⟨none, none, none⟩

def authCtx : Context :=
  ⟨[], none, none, some (Sum.inr ⟨7, "Jane", "Doe"⟩), none, 1,
    some (Breadcrumb.author "Blog" "Posts written by Jane Doe")⟩

theorem get_context_author_breadcrumb_witness :
    authCtx.breadcrumb =
      some (Breadcrumb.author "Blog" "Posts written by Jane Doe") :=
  get_context_author_breadcrumb authIdx authEnv authReq none none none 7
    ⟨7, "Jane", "Doe"⟩ authCtx (by decide) rfl rfl

end ContentManager
